import Mathlib

/-!
Verification of the world-resolution core of `rs-tiled` (`src/world.rs`).

The module resolves a candidate file path against a `World`'s list of
`WorldPattern`s: each pattern carries a regular expression whose first two
capture groups are the x and y integer captures, and an affine transform
`coord = capture * multiplier + offset` computed with checked 32-bit signed
arithmetic.

The regular-expression engine is an external collaborator: `world.rs` only
calls `regexp.captures(path)`, `captures.get(i)` / `as_str()`, and
`regexp.to_string()`.  We therefore embed a regex as its textual source
together with an abstract capture function `String → Option (Nat → Option
String)` (`none` = no match; group lookup by index, `none` = group absent).

Rust panics (`unwrap` on a failed integer parse, `expect` on a non-UTF-8
path) are modelled explicitly by the `MatchOutcome.panicked` constructor, and
a candidate `Path` is modelled as `Option String` (`none` = not valid UTF-8,
`some s` = `to_str` yields `s`).
-/

/-- Signed 32-bit minimum, `i32::MIN`. -/
def i32Min : Int := -2147483648

/-- Signed 32-bit maximum, `i32::MAX`. -/
def i32Max : Int := 2147483647

/-- `v` is representable as an `i32`. -/
def inI32 (v : Int) : Prop := i32Min ≤ v ∧ v ≤ i32Max

instance (v : Int) : Decidable (inI32 v) := by
  unfold inI32; infer_instance

/-- Rust `i32::checked_mul`: the exact product if it fits in `i32`, else
`none`. -/
def checkedMul (a b : Int) : Option Int :=
  if inI32 (a * b) then some (a * b) else none

/-- Rust `i32::checked_add`: the exact sum if it fits in `i32`, else
`none`. -/
def checkedAdd (a b : Int) : Option Int :=
  if inI32 (a + b) then some (a + b) else none

/-- Rust `str::parse::<i32>`: an optional `+`/`-` sign followed by one or
more ASCII digits, whose value fits in the signed 32-bit range; anything
else fails. -/
def parseI32 (s : String) : Option Int :=
  let rest : List Char :=
    match s.data with
    | '+' :: r => r
    | '-' :: r => r
    | r => r
  let sign : Int :=
    match s.data with
    | '-' :: _ => -1
    | _ => 1
  if rest.isEmpty then none
  else if rest.all Char.isDigit then
    let n : Nat := rest.foldl (fun a c => a * 10 + (c.toNat - '0'.toNat)) 0
    let v : Int := sign * (n : Int)
    if inI32 v then some v else none
  else none

/-- A compiled regular expression, as `world.rs` uses it: its textual
source (`Regex::to_string`) and its capture behaviour
(`Regex::captures` composed with `Captures::get`/`as_str`).
`captures s = none` means the regex does not match `s`;
`captures s = some g` means it matches, with `g i` the text of capture
group `i` (`none` when the group did not participate). -/
structure Regex where
  source : String
  captures : String → Option (Nat → Option String)

/-- The error variants of `crate::Error` produced by the world-resolution
code: `NoMatchFound { path }` and `RangeError(String)`. -/
inductive Error where
  | NoMatchFound (path : String)
  | RangeError (msg : String)
deriving Repr, DecidableEq

/-- A `WorldMap`: a single map's placement (`src/world.rs`). -/
structure WorldMap where
  filename : String
  x : Int
  y : Int
  width : Option Int
  height : Option Int
deriving Repr, DecidableEq

/-- A `WorldPattern`: a regex rule plus the affine transform coefficients
(`src/world.rs`).  All four coefficients are `i32` in the source. -/
structure WorldPattern where
  regexp : Regex
  multiplier_x : Int
  multiplier_y : Int
  offset_x : Int
  offset_y : Int

/-- The outcome of running one of the matching functions: a normal success
(`Ok`), a normal error (`Err`), or a Rust panic. -/
inductive MatchOutcome where
  | panicked (msg : String)
  | err (e : Error)
  | ok (m : WorldMap)
deriving Repr, DecidableEq

/-- `impl PartialEq for WorldPattern` (`src/world.rs` lines 90–98):
field-by-field comparison of the four coefficients and of the regex's
textual source. -/
def WorldPattern.eqPattern (a b : WorldPattern) : Bool :=
  a.multiplier_x == b.multiplier_x
    && a.multiplier_y == b.multiplier_y
    && a.offset_x == b.offset_x
    && a.offset_y == b.offset_y
    && a.regexp.source == b.regexp.source

/-- `WorldPattern::match_path_impl` (`src/world.rs` lines 109–165).
Mirrors the source statement by statement:
captures; `get(1)` then `parse::<i32>().unwrap()`; `get(2)` then
`parse::<i32>().unwrap()`; checked multiply/add for x, then for y;
finally the `WorldMap` with the verbatim path and absent width/height. -/
def WorldPattern.match_path_impl (p : WorldPattern) (path : String) :
    MatchOutcome :=
  match p.regexp.captures path with
  | none => .err (.NoMatchFound path)
  | some captures =>
    match captures 1 with
    | none => .err (.NoMatchFound path)
    | some xs =>
      match parseI32 xs with
      | none => .panicked "called Result::unwrap() on an Err value"
      | some x =>
        match captures 2 with
        | none => .err (.NoMatchFound path)
        | some ys =>
          match parseI32 ys with
          | none => .panicked "called Result::unwrap() on an Err value"
          | some y =>
            match checkedMul x p.multiplier_x with
            | none => .err (.RangeError
                "Capture x * multiplierX causes overflow")
            | some xm =>
              match checkedAdd xm p.offset_x with
              | none => .err (.RangeError
                  "Capture x * multiplierX + offsetX causes overflow")
              | some xv =>
                match checkedMul y p.multiplier_y with
                | none => .err (.RangeError
                    "Capture y * multiplierY causes overflow")
                | some ym =>
                  match checkedAdd ym p.offset_y with
                  | none => .err (.RangeError
                      "Capture y * multiplierY + offsetY causes overflow")
                  | some yv =>
                    .ok ⟨path, xv, yv, none, none⟩

/-- `WorldPattern::match_path` (`src/world.rs` lines 103–107): converts the
path to UTF-8 (`expect` panics on failure) then delegates to
`match_path_impl`. -/
def WorldPattern.match_path (p : WorldPattern) (path : Option String) :
    MatchOutcome :=
  match path with
  | none => .panicked "obtaining valid UTF-8 path"
  | some s => p.match_path_impl s

/-- A `World` (`src/world.rs`): source path, explicit map entries, and the
ordered pattern list. -/
structure World where
  source : String
  maps : List WorldMap
  patterns : List WorldPattern

/-- The pattern loop of `World::match_path` (`src/world.rs` lines 32–43):
first `Ok` wins, `NoMatchFound` continues, any other error returns
immediately (a panic unwinds immediately as well); an exhausted list yields
`NoMatchFound { path }`. -/
def World.matchLoop (path : String) : List WorldPattern → MatchOutcome
  | [] => .err (.NoMatchFound path)
  | p :: rest =>
    match p.match_path_impl path with
    | .ok m => .ok m
    | .err (.NoMatchFound _) => World.matchLoop path rest
    | .err e => .err e
    | .panicked s => .panicked s

/-- `World::match_path` (`src/world.rs` lines 29–44): converts the path to
UTF-8 (`expect` panics on failure) then runs the pattern loop. -/
def World.match_path (w : World) (path : Option String) : MatchOutcome :=
  match path with
  | none => .panicked "obtaining valid UTF-8 path"
  | some s => World.matchLoop s w.patterns

/-- `World::match_paths` (`src/world.rs` lines 48–53): one `match_path`
result per input path, collected in order. -/
def World.match_paths (w : World) (paths : List (Option String)) :
    List MatchOutcome :=
  paths.map w.match_path

/-- Is an error the `NoMatchFound` variant? (the discriminant
`World::match_path` uses for its control flow). -/
def Error.isNoMatchFound : Error → Bool
  | .NoMatchFound _ => true
  | .RangeError _ => false

lemma checkedMul_eq_some {a b : Int} (h : inI32 (a * b)) :
    checkedMul a b = some (a * b) := by
  simp [checkedMul, h]

lemma checkedMul_eq_none {a b : Int} (h : ¬ inI32 (a * b)) :
    checkedMul a b = none := by
  simp [checkedMul, h]

lemma checkedAdd_eq_some {a b : Int} (h : inI32 (a + b)) :
    checkedAdd a b = some (a + b) := by
  simp [checkedAdd, h]

lemma checkedAdd_eq_none {a b : Int} (h : ¬ inI32 (a + b)) :
    checkedAdd a b = none := by
  simp [checkedAdd, h]

lemma matchLoop_skip_noMatch (path : String) (pre rest : List WorldPattern)
    (hpre : ∀ q ∈ pre, ∃ s, q.match_path_impl path = .err (.NoMatchFound s)) :
    World.matchLoop path (pre ++ rest) = World.matchLoop path rest := by
  induction pre with
  | nil => rfl
  | cons q pre ih =>
    obtain ⟨s, hs⟩ := hpre q (List.mem_cons_self q pre)
    simp only [List.cons_append, World.matchLoop, hs]
    exact ih fun q hq => hpre q (List.mem_cons_of_mem _ hq)

/-- C1: if the pattern's regex matches `path` with first capture `sx`
parsing to `cx` and second capture `sy` parsing to `cy`, and neither axis
overflows, `WorldPattern::match_path` returns `Ok` of a `WorldMap` whose
`x` is `cx * multiplier_x + offset_x`, whose `y` is
`cy * multiplier_y + offset_y`, whose `filename` is the input path
verbatim, and whose `width` and `height` are both `None`. -/
theorem match_path_success_affine (p : WorldPattern) (path : String)
    (caps : Nat → Option String) (sx sy : String) (cx cy : Int)
    (hc : p.regexp.captures path = some caps)
    (h1 : caps 1 = some sx) (h2 : caps 2 = some sy)
    (hpx : parseI32 sx = some cx) (hpy : parseI32 sy = some cy)
    (hmx : inI32 (cx * p.multiplier_x))
    (hax : inI32 (cx * p.multiplier_x + p.offset_x))
    (hmy : inI32 (cy * p.multiplier_y))
    (hay : inI32 (cy * p.multiplier_y + p.offset_y)) :
    p.match_path (some path) =
      .ok ⟨path, cx * p.multiplier_x + p.offset_x,
           cy * p.multiplier_y + p.offset_y, none, none⟩ := by
  simp only [WorldPattern.match_path, WorldPattern.match_path_impl, hc, h1,
    h2, hpx, hpy, checkedMul_eq_some hmx, checkedAdd_eq_some hax,
    checkedMul_eq_some hmy, checkedAdd_eq_some hay]

/-- The regex `map_(\d+)_(\d+)\.tmx` as the abstract collaborator sees it
on the path `map_2_3.tmx` (spec example scenario 1). -/
def rxMap23 : Regex :=
  { source := "map_(\\d+)_(\\d+)\\.tmx"
    captures := fun s =>
      if s = "map_2_3.tmx" then
        some (fun i =>
          if i = 0 then some "map_2_3.tmx"
          else if i = 1 then some "2"
          else if i = 2 then some "3"
          else none)
      else none }

/-- Pattern with multipliers 32 and offsets 0 (spec example scenario 1). -/
def patTimes32 : WorldPattern := ⟨rxMap23, 32, 32, 0, 0⟩

/-- C1 witness: the pattern/path of spec example 1 satisfies every
hypothesis and yields `WorldMap { filename: "map_2_3.tmx", x: 64, y: 96,
width: None, height: None }`. -/
theorem match_path_success_affine_witness :
    patTimes32.match_path (some "map_2_3.tmx") =
      .ok ⟨"map_2_3.tmx", 2 * 32 + 0, 3 * 32 + 0, none, none⟩ :=
  match_path_success_affine patTimes32 "map_2_3.tmx"
    (fun i =>
      if i = 0 then some "map_2_3.tmx"
      else if i = 1 then some "2"
      else if i = 2 then some "3"
      else none)
    "2" "3" 2 3 rfl rfl rfl (by decide) (by decide) (by decide) (by decide)
    (by decide) (by decide)

/-- C7: `World::match_paths` returns exactly one result per input path, in
input order, the i-th being `World::match_path` of the i-th path; each
entry depends only on its own path. -/
theorem match_paths_elementwise (w : World) (paths : List (Option String)) :
    (w.match_paths paths).length = paths.length ∧
    ∀ i : Nat, (w.match_paths paths)[i]? = (paths[i]?).map w.match_path := by
  refine ⟨by simp [World.match_paths], fun i => ?_⟩
  simp [World.match_paths]

/-- C8: two `WorldPattern`s compare equal exactly when their multipliers,
offsets, and the textual sources of their regexes agree; the capture
behaviour (the compiled regex) plays no role in the right-hand side. -/
theorem eqPattern_iff_fields (a b : WorldPattern) :
    WorldPattern.eqPattern a b = true ↔
      (a.multiplier_x = b.multiplier_x ∧ a.multiplier_y = b.multiplier_y ∧
       a.offset_x = b.offset_x ∧ a.offset_y = b.offset_y ∧
       a.regexp.source = b.regexp.source) := by
  simp [WorldPattern.eqPattern, and_assoc]

/-- C10: on a path that is not valid UTF-8 (modelled as `none`), both
`World::match_path` and `WorldPattern::match_path` panic via the `expect`
on the UTF-8 conversion instead of returning a `Result`. -/
theorem non_utf8_path_panics (w : World) (p : WorldPattern) :
    w.match_path none = .panicked "obtaining valid UTF-8 path" ∧
    p.match_path none = .panicked "obtaining valid UTF-8 path" :=
  ⟨rfl, rfl⟩

/-- A regex matching `f_2_2.tmx` with captures `"2"`, `"2"`, shared by the
two patterns of the C2 scenario. -/
def rxF22 : Regex :=
  { source := "f_(\\d+)_(\\d+)\\.tmx"
    captures := fun s =>
      if s = "f_2_2.tmx" then
        some (fun i =>
          if i = 0 then some "f_2_2.tmx"
          else if i = 1 then some "2"
          else if i = 2 then some "2"
          else none)
      else none }

/-- A pattern on `rxF22` whose `multiplier_x = i32::MAX` makes the x
multiplication overflow on capture `2`. -/
def patOverflowA : WorldPattern := ⟨rxF22, 2147483647, 32, 0, 0⟩

/-- A pattern on `rxF22` with benign coefficients; it matches
`f_2_2.tmx` successfully. -/
def patOkB : WorldPattern := ⟨rxF22, 32, 32, 0, 0⟩

/-- C2 counterexample: in the world `[patOverflowA, patOkB]`, pattern
`patOkB` is the earliest pattern that yields a successful match on
`f_2_2.tmx`, yet `World::match_path` does not return its result — the
earlier pattern's overflow error is returned instead. -/
theorem first_success_claim_false :
    patOkB.match_path_impl "f_2_2.tmx" =
      .ok ⟨"f_2_2.tmx", 64, 64, none, none⟩ ∧
    patOverflowA.match_path_impl "f_2_2.tmx" =
      .err (.RangeError "Capture x * multiplierX causes overflow") ∧
    World.match_path ⟨"w", [], [patOverflowA, patOkB]⟩ (some "f_2_2.tmx") ≠
      .ok ⟨"f_2_2.tmx", 64, 64, none, none⟩ :=
  ⟨rfl, rfl, by decide⟩

/-- C2 amended: if every pattern before `p` yields `NoMatchFound`, and `p`
matches successfully, `World::match_path` returns `p`'s result, whatever
the later patterns are (they are never tried). -/
theorem first_match_wins (src : String) (maps : List WorldMap)
    (pre : List WorldPattern) (p : WorldPattern) (rest : List WorldPattern)
    (path : String) (m : WorldMap)
    (hpre : ∀ q ∈ pre, ∃ s, q.match_path_impl path = .err (.NoMatchFound s))
    (hp : p.match_path_impl path = .ok m) :
    World.match_path ⟨src, maps, pre ++ p :: rest⟩ (some path) = .ok m := by
  simp only [World.match_path,
    matchLoop_skip_noMatch path pre (p :: rest) hpre, World.matchLoop, hp]

/-- A second pattern on `rxMap23`: it also matches `map_2_3.tmx`, with a
different transform. -/
def patSecondB : WorldPattern := ⟨rxMap23, 1, 1, 5, 5⟩

/-- C2 witness: with patterns `[patTimes32, patSecondB]` both matching
`map_2_3.tmx`, the result equals applying `patTimes32` alone. -/
theorem first_match_wins_witness :
    World.match_path ⟨"world", [], [patTimes32, patSecondB]⟩
        (some "map_2_3.tmx") =
      .ok ⟨"map_2_3.tmx", 64, 96, none, none⟩ :=
  first_match_wins "world" [] [] patTimes32 [patSecondB] "map_2_3.tmx"
    ⟨"map_2_3.tmx", 64, 96, none, none⟩
    (fun q hq => absurd hq (List.not_mem_nil q)) rfl

/-- A regex matching both `map_2_2.tmx` (captures `"2"`, `"2"`) and
`map_0002_0002.tmx` (captures `"0002"`, `"0002"`). -/
def rxOv : Regex :=
  { source := "map_(\\d+)_(\\d+)\\.tmx"
    captures := fun s =>
      if s = "map_2_2.tmx" then
        some (fun i =>
          if i = 0 then some "map_2_2.tmx"
          else if i = 1 then some "2"
          else if i = 2 then some "2"
          else none)
      else if s = "map_0002_0002.tmx" then
        some (fun i =>
          if i = 0 then some "map_0002_0002.tmx"
          else if i = 1 then some "0002"
          else if i = 2 then some "0002"
          else none)
      else none }

/-- A pattern on `rxOv` whose `multiplier_x = i32::MAX` overflows on
capture `2` (spec example scenario 3). -/
def patOverflowMul : WorldPattern := ⟨rxOv, 2147483647, 32, 0, 0⟩

/-- C3 counterexample: the overflow error is `RangeError` with a fixed
message; it is the identical error value for two different input paths, so
it carries no `path` (and no structured `axis`/`operation` fields), contrary
to the claimed `ArithmeticOverflow (axis, operation, path)` shape. -/
theorem overflow_error_shape_claim_false :
    patOverflowMul.match_path_impl "map_2_2.tmx" =
      .err (.RangeError "Capture x * multiplierX causes overflow") ∧
    patOverflowMul.match_path_impl "map_0002_0002.tmx" =
      .err (.RangeError "Capture x * multiplierX causes overflow") ∧
    "map_2_2.tmx" ≠ "map_0002_0002.tmx" :=
  ⟨rfl, rfl, by decide⟩

/-- C3 amended: overflow of `capture * multiplier` fails with
`Error::RangeError` whose message names the axis and the multiply
operation; a surviving multiplication followed by an overflowing offset
addition fails with a `RangeError` naming the axis and the add operation;
the y-axis transform runs only after the x-axis one succeeds; the result is
an error — never a wrapped, truncated, or clamped `Ok`; the error carries
only its message, not the path. -/
theorem overflow_range_errors (p : WorldPattern) (path : String)
    (caps : Nat → Option String) (sx sy : String) (cx cy : Int)
    (hc : p.regexp.captures path = some caps)
    (h1 : caps 1 = some sx) (h2 : caps 2 = some sy)
    (hpx : parseI32 sx = some cx) (hpy : parseI32 sy = some cy) :
    (¬ inI32 (cx * p.multiplier_x) →
      p.match_path_impl path =
        .err (.RangeError "Capture x * multiplierX causes overflow")) ∧
    (inI32 (cx * p.multiplier_x) →
      ¬ inI32 (cx * p.multiplier_x + p.offset_x) →
      p.match_path_impl path =
        .err (.RangeError
          "Capture x * multiplierX + offsetX causes overflow")) ∧
    (inI32 (cx * p.multiplier_x) →
      inI32 (cx * p.multiplier_x + p.offset_x) →
      ¬ inI32 (cy * p.multiplier_y) →
      p.match_path_impl path =
        .err (.RangeError "Capture y * multiplierY causes overflow")) ∧
    (inI32 (cx * p.multiplier_x) →
      inI32 (cx * p.multiplier_x + p.offset_x) →
      inI32 (cy * p.multiplier_y) →
      ¬ inI32 (cy * p.multiplier_y + p.offset_y) →
      p.match_path_impl path =
        .err (.RangeError
          "Capture y * multiplierY + offsetY causes overflow")) := by
  refine ⟨fun hmx => ?_, fun hmx hax => ?_, fun hmx hax hmy => ?_,
    fun hmx hax hmy hay => ?_⟩
  · simp only [WorldPattern.match_path_impl, hc, h1, h2, hpx, hpy,
      checkedMul_eq_none hmx]
  · simp only [WorldPattern.match_path_impl, hc, h1, h2, hpx, hpy,
      checkedMul_eq_some hmx, checkedAdd_eq_none hax]
  · simp only [WorldPattern.match_path_impl, hc, h1, h2, hpx, hpy,
      checkedMul_eq_some hmx, checkedAdd_eq_some hax,
      checkedMul_eq_none hmy]
  · simp only [WorldPattern.match_path_impl, hc, h1, h2, hpx, hpy,
      checkedMul_eq_some hmx, checkedAdd_eq_some hax,
      checkedMul_eq_some hmy, checkedAdd_eq_none hay]

/-- C3 witness: `multiplier_x = i32::MAX` with capture `2`
(spec example scenario 3) hits the x-axis multiply overflow case. -/
theorem overflow_range_errors_witness :
    patOverflowMul.match_path_impl "map_2_2.tmx" =
      .err (.RangeError "Capture x * multiplierX causes overflow") :=
  (overflow_range_errors patOverflowMul "map_2_2.tmx"
    (fun i =>
      if i = 0 then some "map_2_2.tmx"
      else if i = 1 then some "2"
      else if i = 2 then some "2"
      else none)
    "2" "2" 2 2 rfl rfl rfl rfl rfl).1 (by decide)

/-- C4: in `World::match_path`, a head pattern yielding `NoMatchFound` is
ignored and resolution equals resolution over the remaining patterns, while
a head pattern yielding any other error makes the resolver return that
error verbatim immediately, whatever patterns remain. -/
theorem resolver_error_policy (src : String) (maps : List WorldMap)
    (q : WorldPattern) (rest : List WorldPattern) (path : String) :
    ((∃ s, q.match_path_impl path = .err (.NoMatchFound s)) →
      World.match_path ⟨src, maps, q :: rest⟩ (some path) =
        World.match_path ⟨src, maps, rest⟩ (some path)) ∧
    (∀ e, q.match_path_impl path = .err e → e.isNoMatchFound = false →
      World.match_path ⟨src, maps, q :: rest⟩ (some path) = .err e) := by
  constructor
  · rintro ⟨s, hs⟩
    simp only [World.match_path, World.matchLoop, hs]
  · rintro e he hnm
    cases e with
    | NoMatchFound s => simp [Error.isNoMatchFound] at hnm
    | RangeError msg => simp only [World.match_path, World.matchLoop, he]

/-- C4 witness: an overflow error from the first pattern aborts resolution
immediately and reaches the caller verbatim, with `patTimes32` still
untried behind it. -/
theorem resolver_error_policy_witness :
    World.match_path ⟨"w", [], [patOverflowMul, patTimes32]⟩
        (some "map_2_2.tmx") =
      .err (.RangeError "Capture x * multiplierX causes overflow") :=
  (resolver_error_policy "w" [] patOverflowMul [patTimes32]
    "map_2_2.tmx").2
    (.RangeError "Capture x * multiplierX causes overflow") rfl rfl

/-- The captures of a regex like `([a-z]+)(\d+)?\.tmx` on `abc.tmx`: the
full match and a first group `"abc"`, with the optional second group
absent. -/
def capsAbc : Nat → Option String :=
  fun i =>
    if i = 0 then some "abc.tmx"
    else if i = 1 then some "abc"
    else none

/-- A regex whose second capture group is optional, so a match may lack
it while the first group holds non-numeric text. -/
def rxOptY : Regex :=
  { source := "([a-z]+)(\\d+)?\\.tmx"
    captures := fun s => if s = "abc.tmx" then some capsAbc else none }

/-- Pattern on `rxOptY` with identity-ish coefficients. -/
def patOptY : WorldPattern := ⟨rxOptY, 1, 1, 0, 0⟩

/-- C5 counterexample: the regex matches `abc.tmx` and the match lacks a
second capture group, yet `match_path_impl` panics (the first capture
`"abc"` is `unwrap`-parsed before the second group is ever checked) instead
of failing with `NoMatchFound`. -/
theorem missing_second_group_claim_false :
    patOptY.regexp.captures "abc.tmx" = some capsAbc ∧
    capsAbc 2 = none ∧
    patOptY.match_path_impl "abc.tmx" =
      .panicked "called Result::unwrap() on an Err value" ∧
    patOptY.match_path_impl "abc.tmx" ≠ .err (.NoMatchFound "abc.tmx") :=
  ⟨rfl, rfl, rfl, by decide⟩

/-- C5 amended: if the regex matches but the match lacks a first capture
group, or lacks a second capture group while the first one's text parses
as an i32, the result is `NoMatchFound` carrying the path — the same error
as a failed regex match, with no crash. -/
theorem missing_groups_no_match (p : WorldPattern) (path : String)
    (caps : Nat → Option String)
    (hc : p.regexp.captures path = some caps) :
    (caps 1 = none → p.match_path_impl path = .err (.NoMatchFound path)) ∧
    (∀ sx cx, caps 1 = some sx → parseI32 sx = some cx → caps 2 = none →
      p.match_path_impl path = .err (.NoMatchFound path)) := by
  constructor
  · intro h1
    simp only [WorldPattern.match_path_impl, hc, h1]
  · intro sx cx h1 hpx h2
    simp only [WorldPattern.match_path_impl, hc, h1, hpx, h2]

/-- The captures of a group-free regex on `plain.tmx`: only the full
match, no first group. -/
def capsNoGroups : Nat → Option String :=
  fun i => if i = 0 then some "plain.tmx" else none

/-- A regex with no capture groups at all. -/
def rxNoGroups : Regex :=
  { source := "[a-z]+\\.tmx"
    captures := fun s => if s = "plain.tmx" then some capsNoGroups else none }

/-- Pattern on `rxNoGroups`. -/
def patNoGroups : WorldPattern := ⟨rxNoGroups, 1, 1, 0, 0⟩

/-- The captures of `lvl_(\d+)(?:_(\d+))?\.tmx` on `lvl_7.tmx`: a numeric
first group, the optional second group absent. -/
def capsOnlyX : Nat → Option String :=
  fun i =>
    if i = 0 then some "lvl_7.tmx"
    else if i = 1 then some "7"
    else none

/-- A regex whose second group is optional, first group numeric. -/
def rxOnlyX : Regex :=
  { source := "lvl_(\\d+)(?:_(\\d+))?\\.tmx"
    captures := fun s => if s = "lvl_7.tmx" then some capsOnlyX else none }

/-- Pattern on `rxOnlyX`. -/
def patOnlyX : WorldPattern := ⟨rxOnlyX, 1, 1, 0, 0⟩

/-- C5 witness: a match with no first group, and a match with a numeric
first group but no second group, both produce `NoMatchFound`. -/
theorem missing_groups_no_match_witness :
    patNoGroups.match_path_impl "plain.tmx" =
      .err (.NoMatchFound "plain.tmx") ∧
    patOnlyX.match_path_impl "lvl_7.tmx" =
      .err (.NoMatchFound "lvl_7.tmx") :=
  ⟨(missing_groups_no_match patNoGroups "plain.tmx" capsNoGroups rfl).1 rfl,
   (missing_groups_no_match patOnlyX "lvl_7.tmx" capsOnlyX rfl).2
     "7" 7 rfl rfl rfl⟩

/-- C6: if every configured pattern yields `NoMatchFound` (in particular
when there are zero patterns), `World::match_path` fails with
`NoMatchFound` carrying the input path. -/
theorem all_no_match (src : String) (maps : List WorldMap)
    (patterns : List WorldPattern) (path : String)
    (h : ∀ q ∈ patterns,
      ∃ s, q.match_path_impl path = .err (.NoMatchFound s)) :
    World.match_path ⟨src, maps, patterns⟩ (some path) =
      .err (.NoMatchFound path) := by
  have hskip := matchLoop_skip_noMatch path patterns [] h
  simp only [List.append_nil] at hskip
  simp only [World.match_path, hskip, World.matchLoop]

/-- A pattern whose regex matches nothing. -/
def patNever : WorldPattern :=
  ⟨{ source := "map_(\\d+)_(\\d+)\\.tmx", captures := fun _ => none },
    32, 32, 0, 0⟩

/-- C6 witness: a world whose single pattern does not match `level1.tmx`
fails with `NoMatchFound` for that path (spec example scenario 2). -/
theorem all_no_match_witness :
    World.match_path ⟨"w", [], [patNever]⟩ (some "level1.tmx") =
      .err (.NoMatchFound "level1.tmx") :=
  all_no_match "w" [] [patNever] "level1.tmx"
    (fun q hq => by
      have hq' : q = patNever := by simpa using hq
      subst hq'
      exact ⟨"level1.tmx", rfl⟩)

/-- C9: when the regex matches and a present capture group's text does not
parse as a signed 32-bit integer — the first group, or the second group
after a parseable first — `match_path_impl` panics via `unwrap` instead of
returning any error value. -/
theorem unparseable_capture_panics (p : WorldPattern) (path : String)
    (caps : Nat → Option String)
    (hc : p.regexp.captures path = some caps) :
    (∀ sx, caps 1 = some sx → parseI32 sx = none →
      p.match_path_impl path =
        .panicked "called Result::unwrap() on an Err value") ∧
    (∀ sx cx sy, caps 1 = some sx → parseI32 sx = some cx →
      caps 2 = some sy → parseI32 sy = none →
      p.match_path_impl path =
        .panicked "called Result::unwrap() on an Err value") := by
  constructor
  · intro sx h1 hpx
    simp only [WorldPattern.match_path_impl, hc, h1, hpx]
  · intro sx cx sy h1 hpx h2 hpy
    simp only [WorldPattern.match_path_impl, hc, h1, hpx, h2, hpy]

/-- The captures of a regex like `m_(\d+)_(\w+)\.tmx` on `m_12_9z.tmx`:
the second group `"9z"` is not a valid integer. -/
def capsBadY : Nat → Option String :=
  fun i =>
    if i = 0 then some "m_12_9z.tmx"
    else if i = 1 then some "12"
    else if i = 2 then some "9z"
    else none

/-- A regex whose second group admits non-numeric text. -/
def rxBadY : Regex :=
  { source := "m_(\\d+)_(\\w+)\\.tmx"
    captures := fun s => if s = "m_12_9z.tmx" then some capsBadY else none }

/-- Pattern on `rxBadY`. -/
def patBadY : WorldPattern := ⟨rxBadY, 1, 1, 0, 0⟩

/-- C9 witness: a present second capture `"9z"` that fails integer parsing
makes the match panic. -/
theorem unparseable_capture_panics_witness :
    patBadY.match_path_impl "m_12_9z.tmx" =
      .panicked "called Result::unwrap() on an Err value" :=
  (unparseable_capture_panics patBadY "m_12_9z.tmx" capsBadY rfl).2
    "12" 12 "9z" rfl rfl rfl rfl
